import Mathlib

/-!
# Verification of the Libra transaction-admission pipeline specification

This file embeds, in Lean 4, the parts of the repository that the spec's
claims are about:

* the transaction admission / prologue-validation pipeline exercised by
  `language/e2e-tests/src/tests/verify_txn.rs` (the pipeline implementation
  itself is not part of the source tree, so it is modelled from the spec,
  with the check order pinned down by the assertions of the e2e tests,
  which are part of the source tree and therefore authoritative);
* the standard-library script whitelist of
  `language/stdlib/compiled/src/transaction_scripts.rs`;
* `ChainId` string parsing of `types/src/chain_id.rs`.
-/

namespace Libra

/-- The closed set of rejection status codes that appear in the spec and in
the e2e tests (`vm_status::StatusCode` restricted to the codes the claims
mention). -/
inductive StatusCode
  | BadChainId
  | TransactionExpired
  | SendingAccountDoesNotExist
  | InvalidSignature
  | InvalidAuthKey
  | SequenceNumberTooOld
  | SequenceNumberTooNew
  | ExceededMaxTransactionSize
  | MaxGasUnitsBelowMinTransactionGasUnits
  | MaxGasUnitsExceedsMaxGasUnitsBound
  | GasUnitPriceAboveMaxBound
  | GasUnitPriceBelowMinBound
  | InsufficientBalanceForTransactionFee
  | UnknownScript
  | InvalidModulePublisher
  | ModuleAddressDoesNotMatchSender
  | CodeDeserializationError
  | TypeMismatch
  deriving DecidableEq

/-- Discard means the transaction is dropped with no ledger trace; Keep
means it is recorded, charged, and the sequence number advances (spec 4.1). -/
inductive TxnClass
  | Discard
  | Keep
  deriving DecidableEq

/-- Modelled from the spec: the Discard/Keep classification of each status
code (spec 4.1); the mapping itself lives outside the provided sources.
Payload-gating and post-deserialization statuses are Keep, everything the
prologue checks 1-10 can produce is Discard. -/
def StatusCode.classification : StatusCode → TxnClass
  | .UnknownScript => .Keep
  | .InvalidModulePublisher => .Keep
  | .ModuleAddressDoesNotMatchSender => .Keep
  | .CodeDeserializationError => .Keep
  | .TypeMismatch => .Keep
  | _ => .Discard

/-- A transaction argument (`TransactionArgument` in `libra_types`),
restricted to the variants the e2e tests use. -/
inductive TransactionArgument
  | U64 (v : Nat)
  | Address (a : Nat)
  | U8Vector (bs : List Nat)
  deriving DecidableEq

/-- The type tag of a transaction argument, used for the positional
argument-type check (spec 4.4 check 12). -/
inductive ArgType
  | U64T
  | AddressT
  | U8VectorT
  deriving DecidableEq

/-- The declared type of a supplied argument. -/
def TransactionArgument.typeOf : TransactionArgument → ArgType
  | .U64 _ => .U64T
  | .Address _ => .AddressT
  | .U8Vector _ => .U8VectorT

/-- Transaction payload: a script with bytecode, type arguments and
arguments, or a module-publish request (spec 3; write-sets are out of
scope for the claims). -/
inductive TransactionPayload
  | Script (code : List Nat) (tyArgs : List Nat) (args : List TransactionArgument)
  | Module (code : List Nat)
  deriving DecidableEq

/-- `RawTransaction` (spec 3). Addresses and keys are abstracted as `Nat`. -/
structure RawTransaction where
  sender : Nat
  sequenceNumber : Nat
  payload : TransactionPayload
  maxGasAmount : Nat
  gasUnitPrice : Nat
  gasCurrencyCode : String
  expirationTime : Nat
  chainId : Nat
  deriving DecidableEq

/-- `SignedTransaction` (spec 3): a raw transaction plus the claimed public
key and the signature. -/
structure SignedTransaction where
  raw : RawTransaction
  publicKey : Nat
  signature : Nat
  deriving DecidableEq

/-- `AccountContext` (spec 3): the read-only ledger snapshot of the sender. -/
structure AccountContext where
  accountExists : Bool
  authenticationKey : Nat
  sequenceNumber : Nat
  balance : String → Nat

/-- `GasConstants` (spec 3 and 4.2), including the maximum serialized
transaction size used by check 10. -/
structure GasConstants where
  minTransactionGasUnits : Nat
  maximumNumberOfGasUnits : Nat
  minPricePerGasUnit : Nat
  maxPricePerGasUnit : Nat
  maxTransactionSizeInBytes : Nat

/-- `PublishingPolicy` (spec 3): `Locked` carries the whitelist of script
content hashes (`VMPublishingOption` in the sources). -/
inductive PublishingPolicy
  | Locked (whitelist : List (List Nat))
  | CustomScripts
  | Open

/-- The external collaborators the pipeline consumes as black boxes
(spec 6): signature verification, authentication-key derivation, content
hashing, serialization size, and bytecode deserialization. -/
structure Oracles where
  verifySig : List Nat → Nat → Nat → Bool
  hashPublicKey : Nat → Nat
  contentHash : List Nat → List Nat
  rawBytes : RawTransaction → List Nat
  txnSize : SignedTransaction → Nat
  deserializeModuleAddress : List Nat → Option Nat
  deserializeScriptSig : List Nat → Option (List ArgType)

/-- The process-wide configuration of one validation run (spec 4.4):
ledger chain id, current time, gas constants, publishing policy, the
privileged-root address, and the black-box collaborators. -/
structure ValidationEnv where
  chainId : Nat
  currentTime : Nat
  gas : GasConstants
  policy : PublishingPolicy
  rootAddress : Nat
  oracles : Oracles

/-- The two call sites that share the validator (spec 4.5). -/
inductive CallSite
  | admission
  | execution
  deriving DecidableEq

/-- Modelled from the spec: the account-level checks 1-6 of the prologue
pipeline (spec 4.4) — chain id, expiration, sender existence, signature,
authentication key, and the sequence-number window. The validator
implementation is not under the provided sources; the order follows
spec 4.4 and the too-new asymmetry follows both spec 5 and the
`assert_prologue_disparity` assertion of `verify_simple_payment`:
sequence-number-too-new is only detected at the execution call site. -/
def accountChecks (env : ValidationEnv) (txn : SignedTransaction)
    (ctx : AccountContext) (site : CallSite) : Option StatusCode :=
  if txn.raw.chainId ≠ env.chainId then some .BadChainId
  else if txn.raw.expirationTime < env.currentTime then some .TransactionExpired
  else if ctx.accountExists = false then some .SendingAccountDoesNotExist
  else if env.oracles.verifySig (env.oracles.rawBytes txn.raw) txn.publicKey txn.signature = false then
    some .InvalidSignature
  else if env.oracles.hashPublicKey txn.publicKey ≠ ctx.authenticationKey then
    some .InvalidAuthKey
  else if txn.raw.sequenceNumber < ctx.sequenceNumber then some .SequenceNumberTooOld
  else if site = .execution ∧ ctx.sequenceNumber < txn.raw.sequenceNumber then
    some .SequenceNumberTooNew
  else none

/-- Modelled from the spec: the gas, size and affordability checks 7-10 of
the pipeline (spec 4.2 and 4.4). The validator implementation is not under
the provided sources; the relative order is pinned by the build-up of
errors in `verify_simple_payment` (lines 211-306 state they are asserted
"in the reverse order that they appear in verify_transaction"): the size
bound is checked first, then the max-gas-units bounds (below-minimum
before above-maximum, spec 4.4 check 9), then the gas-price bounds, and
gas affordability last. All bound comparisons are strict, bounds
inclusive (spec 4.2). -/
def gasAndSizeChecks (env : ValidationEnv) (txn : SignedTransaction)
    (ctx : AccountContext) : Option StatusCode :=
  if env.gas.maxTransactionSizeInBytes < env.oracles.txnSize txn then
    some .ExceededMaxTransactionSize
  else if txn.raw.maxGasAmount < env.gas.minTransactionGasUnits then
    some .MaxGasUnitsBelowMinTransactionGasUnits
  else if env.gas.maximumNumberOfGasUnits < txn.raw.maxGasAmount then
    some .MaxGasUnitsExceedsMaxGasUnitsBound
  else if env.gas.maxPricePerGasUnit < txn.raw.gasUnitPrice then
    some .GasUnitPriceAboveMaxBound
  else if txn.raw.gasUnitPrice < env.gas.minPricePerGasUnit then
    some .GasUnitPriceBelowMinBound
  else if ctx.balance txn.raw.gasCurrencyCode < txn.raw.maxGasAmount * txn.raw.gasUnitPrice then
    some .InsufficientBalanceForTransactionFee
  else none

/-- Modelled from the spec: the payload-gating checks that need no
deserialization (spec 4.3 and check 11 of 4.4): the module-publisher
privilege check under `Locked`/`CustomScripts`, and the script whitelist
lookup under `Locked`. The e2e tests `test_whitelist` and
`test_publish_from_libra_root` assert prologue parity for these, so both
call sites evaluate them. -/
def shallowPayloadCheck (env : ValidationEnv) (txn : SignedTransaction) :
    Option StatusCode :=
  match txn.raw.payload with
  | .Module _ =>
    match env.policy with
    | .Open => none
    | _ => if txn.raw.sender ≠ env.rootAddress then some .InvalidModulePublisher else none
  | .Script code _ _ =>
    match env.policy with
    | .Locked wl => if env.oracles.contentHash code ∈ wl then none else some .UnknownScript
    | _ => none

/-- Modelled from the spec: the deserialization-dependent payload checks
(spec 4.3 and checks 11-12 of 4.4): bytecode deserialization, the
module-address-matches-sender rule under `Open`, and the positional
argument-type check for scripts. Per the e2e tests
(`test_arbitrary_script_execution`, `test_open_publishing_invalid_address`,
the swapped-arguments case of `verify_simple_payment`) these are reached
only by the execution call site. -/
def deepPayloadCheck (env : ValidationEnv) (txn : SignedTransaction) :
    Option StatusCode :=
  match txn.raw.payload with
  | .Module code =>
    match env.oracles.deserializeModuleAddress code with
    | none => some .CodeDeserializationError
    | some a =>
      match env.policy with
      | .Open => if a ≠ txn.raw.sender then some .ModuleAddressDoesNotMatchSender else none
      | _ => none
  | .Script code _ args =>
    match env.oracles.deserializeScriptSig code with
    | none => some .CodeDeserializationError
    | some sig => if args.map TransactionArgument.typeOf ≠ sig then some .TypeMismatch else none

/-- Modelled from the spec: the shared prologue validator (spec 4.4), a
strict short-circuiting sequence of checks: account checks, then gas and
size checks, then shallow payload gating, and — only at the execution
call site — the deserialization-dependent checks. -/
def validate (env : ValidationEnv) (txn : SignedTransaction)
    (ctx : AccountContext) (site : CallSite) : Option StatusCode :=
  match accountChecks env txn ctx site with
  | some c => some c
  | none =>
    match gasAndSizeChecks env txn ctx with
    | some c => some c
    | none =>
      match shallowPayloadCheck env txn with
      | some c => some c
      | none =>
        match site with
        | .admission => none
        | .execution => deepPayloadCheck env txn

/-- The admission call site (`verify_transaction` in the e2e tests):
`none` means Accepted. -/
def verifyTransaction (env : ValidationEnv) (txn : SignedTransaction)
    (ctx : AccountContext) : Option StatusCode :=
  validate env txn ctx .admission

/-- The VM status an executed transaction carries, mirroring
`VMStatus::Executed` / `VMStatus::Error(code)`. -/
inductive VMStatusModel
  | Executed
  | Error (c : StatusCode)
  deriving DecidableEq

/-- The outcome of the execution call site, mirroring
`TransactionStatus::Discard` / `TransactionStatus::Keep`. -/
inductive TransactionStatusModel
  | Discard (s : VMStatusModel)
  | Keep (s : VMStatusModel)
  deriving DecidableEq

/-- Modelled from the spec: the execution gate (spec 4.5) — it re-runs the
validator at the execution call site; a Discard-classified failure leaves
no trace, a Keep-classified failure or success is recorded. Payload
execution itself is out of scope (spec 1), so a fully validated
transaction is recorded as `Keep Executed`. -/
def executeTransaction (env : ValidationEnv) (txn : SignedTransaction)
    (ctx : AccountContext) : TransactionStatusModel :=
  match validate env txn ctx .execution with
  | none => .Keep .Executed
  | some c =>
    match c.classification with
    | .Keep => .Keep (.Error c)
    | .Discard => .Discard (.Error c)

/-! ## Concrete fixture mirroring the e2e test genesis

The fixture mirrors `verify_txn.rs`: a sender account with balance
900_000 and sequence number 10, the default testnet gas constants
(`GasConstants::default()`: minimum 600 gas units, maximum 4_000_000 gas
units, gas price in [0, 10_000], maximum transaction size 4096 bytes),
and a whitelisted peer-to-peer script. Bytecode, hashes and keys are
abstracted to small numeric tokens; the oracles below interpret them. -/

/-- The gas currency used by the fixture transactions (`LBR_NAME`). -/
def lbr : String := "LBR"

/-- The default testnet gas constants used by the e2e tests. -/
def testGasConstants : GasConstants :=
  { minTransactionGasUnits := 600
    maximumNumberOfGasUnits := 4000000
    minPricePerGasUnit := 0
    maxPricePerGasUnit := 10000
    maxTransactionSizeInBytes := 4096 }

/-- Token for the compiled peer-to-peer script bytecode. -/
def p2pCode : List Nat := [1]

/-- The declared parameter signature of the peer-to-peer script:
payee address, amount, and two metadata byte vectors. -/
def p2pSig : List ArgType := [.AddressT, .U64T, .U8VectorT, .U8VectorT]

/-- The privileged-root (libra root) address of the fixture, `0xA550C18`. -/
def rootAddr : Nat := 173345816

/-- The fixture sender address. -/
def senderAddr : Nat := 10

/-- The fixture receiver address. -/
def receiverAddr : Nat := 11

/-- Fixture oracles: the signature `1` is the unique valid signature, the
authentication key of a public key is the key itself, content hashing is
the identity on bytecode tokens, the serialized size is 100 bytes plus 50
bytes per script argument, module token `[7]` deserializes to the root
address, `[8]` to the receiver, `[12]` to the sender, and only the
peer-to-peer token deserializes as a script. -/
def testOracles : Oracles :=
  { verifySig := fun _ _ s => s = 1
    hashPublicKey := fun k => k
    contentHash := fun b => b
    rawBytes := fun _ => []
    txnSize := fun t =>
      match t.raw.payload with
      | .Script _ _ args => 100 + 50 * args.length
      | .Module code => 100 + code.length
    deserializeModuleAddress := fun code =>
      if code = [7] then some rootAddr
      else if code = [8] then some receiverAddr
      else if code = [12] then some senderAddr
      else none
    deserializeScriptSig := fun code => if code = p2pCode then some p2pSig else none }

/-- Fixture environment with the `Locked` stdlib-whitelist policy
(`FakeExecutor::from_genesis_file`); the whitelist holds the content hash
of the peer-to-peer script. -/
def lockedEnv : ValidationEnv :=
  { chainId := 4
    currentTime := 0
    gas := testGasConstants
    policy := .Locked [p2pCode]
    rootAddress := rootAddr
    oracles := testOracles }

/-- Fixture environment with the `CustomScripts` policy
(`VMPublishingOption::custom_scripts()`). -/
def customEnv : ValidationEnv :=
  { lockedEnv with policy := .CustomScripts }

/-- Fixture environment with the `Open` policy (`VMPublishingOption::open()`). -/
def openEnv : ValidationEnv :=
  { lockedEnv with policy := .Open }

/-- The sender's account snapshot: exists, balance 900_000 LBR, sequence
number 10, authentication key matching public key 100. -/
def ctxSender : AccountContext :=
  { accountExists := true
    authenticationKey := 100
    sequenceNumber := 10
    balance := fun c => if c = lbr then 900000 else 0 }

/-- A peer-to-peer script transfer of 1_000 to the receiver with
max_gas_amount 100_000 and gas_unit_price 1, at a chosen sequence number
(the `verify_simple_payment` scenario). -/
def p2pTxn (seq : Nat) : SignedTransaction :=
  { raw :=
    { sender := senderAddr
      sequenceNumber := seq
      payload := .Script p2pCode [0]
          [.Address receiverAddr, .U64 1000, .U8Vector [], .U8Vector []]
      maxGasAmount := 100000
      gasUnitPrice := 1
      gasCurrencyCode := lbr
      expirationTime := 1000
      chainId := 4 }
    publicKey := 100
    signature := 1 }

/-- An empty (garbage) script transaction, mirroring the `random_script`
of `test_whitelist` and `test_arbitrary_script_execution`. -/
def garbageTxn : SignedTransaction :=
  { raw :=
    { sender := senderAddr
      sequenceNumber := 10
      payload := .Script [] [] []
      maxGasAmount := 100000
      gasUnitPrice := 1
      gasCurrencyCode := lbr
      expirationTime := 1000
      chainId := 4 }
    publicKey := 100
    signature := 1 }

/-- A module-publish transaction from the (non-root) sender whose module
self-declares the sender's own address, mirroring
`test_publish_from_libra_root`. -/
def modulePublishTxn : SignedTransaction :=
  { garbageTxn with raw := { garbageTxn.raw with payload := .Module [12] } }

/-- The peer-to-peer transaction with max_gas_amount 1_000_000 and
gas_unit_price one above the maximum bound, which violates both the
gas-price upper bound and gas affordability (lines 217-230 of
`verify_simple_payment`). -/
def overpricedTxn : SignedTransaction :=
  { raw := { (p2pTxn 10).raw with maxGasAmount := 1000000, gasUnitPrice := 10001 }
    publicKey := 100
    signature := 1 }

/-- The peer-to-peer transaction with 100 arguments (serialized size 5100
bytes, above the 4096 bound) and max_gas_amount one above the ceiling,
which violates both the size bound and the max-gas-units ceiling
(lines 293-306 of `verify_simple_payment`). -/
def oversizedTxn : SignedTransaction :=
  { raw := { (p2pTxn 10).raw with
      payload := .Script p2pCode [0] (List.replicate 100 (.U64 42))
      maxGasAmount := 4000001
      gasUnitPrice := 10000 }
    publicKey := 100
    signature := 1 }

/-- A module-publish transaction from the privileged-root sender with gas
price 0, mirroring `test_no_publishing_libra_root_sender`. -/
def moduleRootTxn : SignedTransaction :=
  { raw :=
    { sender := rootAddr
      sequenceNumber := 10
      payload := .Module [7]
      maxGasAmount := 100000
      gasUnitPrice := 0
      gasCurrencyCode := lbr
      expirationTime := 1000
      chainId := 4 }
    publicKey := 100
    signature := 1 }

/-- A module-publish transaction whose module self-declares the receiver's
address instead of the sender's, mirroring
`test_open_publishing_invalid_address`. -/
def moduleMismatchTxn : SignedTransaction :=
  { garbageTxn with raw := { garbageTxn.raw with payload := .Module [8] } }

/-- The privileged-root account snapshot (exists, matching key, zero
balance: the root publish in the tests uses gas price 0). -/
def ctxRoot : AccountContext :=
  { accountExists := true
    authenticationKey := 100
    sequenceNumber := 10
    balance := fun _ => 0 }

/-- A snapshot of a sender with no on-ledger account record
(`AccountData` never added to the executor). -/
def ctxBogus : AccountContext :=
  { accountExists := false
    authenticationKey := 100
    sequenceNumber := 10
    balance := fun _ => 100000 }

/-! ## The standard-library script whitelist
(`language/stdlib/compiled/src/transaction_scripts.rs`)

The content-hash function (sha3-256) and the compiled bytecode of each
script are external black boxes (the bytecode is loaded from binary ABI
files at build time), so they enter the definitions as parameters. -/

/-- All Move transaction scripts of the standard library (`StdlibScript`). -/
inductive StdlibScript
  | AddCurrencyToAccount
  | AddRecoveryRotationCapability
  | AddValidator
  | Burn
  | BurnTxnFees
  | CancelBurn
  | CreateChildVaspAccount
  | CreateDesignatedDealer
  | CreateParentVaspAccount
  | CreateRecoveryAddress
  | CreateTestingAccount
  | CreateValidatorAccount
  | CreateValidatorOperatorAccount
  | FreezeAccount
  | MintLbr
  | ModifyPublishingOption
  | PeerToPeerWithMetadata
  | Preburn
  | PublishAccountLimitDefinition
  | PublishSharedEd2551PublicKey
  | Reconfigure
  | RemoveValidator
  | RotateAuthenticationKey
  | RotateAuthenticationKeyWithNonce
  | RotateAuthenticationKeyWithRecoveryAddress
  | RotateDualAttestationInfo
  | RotateSharedEd2551PublicKey
  | UpdateAccountLimitWindowInfo
  | SetValidatorConfig
  | SetValidatorOperator
  | TestnetMint
  | TieredMint
  | UnfreezeAccount
  | UnmintLbr
  | UpdateAccountLimitDefinition
  | UpdateExchangeRate
  | UpdateLibraVersion
  | UpdateMintingAbility
  | UpdateDualAttestationLimit
  deriving DecidableEq

/-- `StdlibScript::all()`: the vector of every stdlib script, in source
order. -/
def StdlibScript.all : List StdlibScript :=
  [.AddCurrencyToAccount,
   .AddRecoveryRotationCapability,
   .AddValidator,
   .Burn,
   .BurnTxnFees,
   .CancelBurn,
   .CreateChildVaspAccount,
   .CreateDesignatedDealer,
   .CreateParentVaspAccount,
   .CreateRecoveryAddress,
   .CreateTestingAccount,
   .CreateValidatorAccount,
   .CreateValidatorOperatorAccount,
   .FreezeAccount,
   .MintLbr,
   .ModifyPublishingOption,
   .PeerToPeerWithMetadata,
   .Preburn,
   .PublishAccountLimitDefinition,
   .PublishSharedEd2551PublicKey,
   .Reconfigure,
   .RemoveValidator,
   .RotateAuthenticationKey,
   .RotateAuthenticationKeyWithNonce,
   .RotateAuthenticationKeyWithRecoveryAddress,
   .RotateDualAttestationInfo,
   .RotateSharedEd2551PublicKey,
   .UpdateAccountLimitWindowInfo,
   .SetValidatorConfig,
   .SetValidatorOperator,
   .TestnetMint,
   .TieredMint,
   .UnfreezeAccount,
   .UnmintLbr,
   .UpdateAccountLimitDefinition,
   .UpdateExchangeRate,
   .UpdateLibraVersion,
   .UpdateMintingAbility,
   .UpdateDualAttestationLimit]

/-- `StdlibScript::whitelist()`: the content hash of every stdlib script's
compiled bytecode, in the order of `all`; `hash` is the sha3-256 digest
and `code` the compiled bytecode of a script, both external. -/
def StdlibScript.whitelist (hash : List Nat → List Nat)
    (code : StdlibScript → List Nat) : List (List Nat) :=
  StdlibScript.all.map fun script => hash (code script)

/-- `TryFrom<&[u8]> for StdlibScript::try_from`: hash the candidate bytes
once, then linearly scan `all` for a script whose compiled-bytecode hash
equals it byte-for-byte. -/
def StdlibScript.tryFrom (hash : List Nat → List Nat)
    (code : StdlibScript → List Nat) (codeBytes : List Nat) : Option StdlibScript :=
  let h := hash codeBytes
  StdlibScript.all.find? fun script => hash (code script) == h

/-- `StdlibScript::is`: `code_bytes` is the bytecode of some stdlib script
exactly when `try_from` succeeds. -/
def StdlibScript.is (hash : List Nat → List Nat)
    (code : StdlibScript → List Nat) (codeBytes : List Nat) : Bool :=
  (StdlibScript.tryFrom hash code codeBytes).isSome

/-! ## ChainId parsing (`types/src/chain_id.rs`) -/

/-- `ChainId`: a u8 newtype identifying a chain. -/
structure ChainId where
  id : Nat
  deriving DecidableEq

/-- `NamedChain`: the registry of reserved chain names, `repr(u8)` with
implicit discriminants 0 to 4. -/
inductive NamedChain
  | MAINNET
  | PREMAINNET
  | TESTNET
  | DEVNET
  | TESTING
  deriving DecidableEq

/-- `NamedChain::id`: the u8 discriminant of each named chain. -/
def NamedChain.id : NamedChain → Nat
  | .MAINNET => 0
  | .PREMAINNET => 1
  | .TESTNET => 2
  | .DEVNET => 3
  | .TESTING => 4

/-- `NamedChain::str_to_chain_id`: map one of the five reserved names to a
`ChainId` carrying its discriminant; any other string is an error
(modelled as `none`). -/
def NamedChain.strToChainId (s : String) : Option ChainId :=
  if s = "MAINNET" then some ⟨NamedChain.MAINNET.id⟩
  else if s = "PREMAINNET" then some ⟨NamedChain.PREMAINNET.id⟩
  else if s = "TESTNET" then some ⟨NamedChain.TESTNET.id⟩
  else if s = "DEVNET" then some ⟨NamedChain.DEVNET.id⟩
  else if s = "TESTING" then some ⟨NamedChain.TESTING.id⟩
  else none

/-- The numeric value of a list of decimal digit characters. -/
def decimalValue (cs : List Char) : Nat :=
  cs.foldl (fun acc c => acc * 10 + (c.toNat - 48)) 0

/-- Rust's `s.parse::<u8>()`: an optional leading plus sign, then one or
more decimal digits whose value fits in a u8 (at most 255, larger values
overflow to an error); anything else, including the empty string, is a
parse error. -/
def parseU8 (s : String) : Option Nat :=
  let cs :=
    match s.data with
    | '+' :: rest => rest
    | cs => cs
  if cs ≠ [] ∧ cs.all Char.isDigit then
    if decimalValue cs ≤ 255 then some (decimalValue cs) else none
  else none

/-- The observable outcome of `<ChainId as FromStr>::from_str`: a parsed
chain id, an error, or the panic of the `assert!(!s.is_empty())`. -/
inductive FromStrOutcome
  | panicked
  | ok (c : ChainId)
  | err
  deriving DecidableEq

/-- `<ChainId as FromStr>::from_str`: assert the input is nonempty
(panicking otherwise), try the reserved-name lookup first, and fall back
to decimal u8 parsing, propagating its error. -/
def ChainId.fromStr (s : String) : FromStrOutcome :=
  if s.isEmpty then .panicked
  else
    match NamedChain.strToChainId s with
    | some c => .ok c
    | none =>
      match parseU8 s with
      | some n => .ok ⟨n⟩
      | none => .err

/-- C1: in the concrete scenario of an account with balance 900_000 and
sequence number 10 sending a peer-to-peer transfer of 1_000 with
max_gas_amount 100_000 and gas_unit_price 1: at sequence number 10 both
call sites accept; at sequence number 1 both call sites reject with
SequenceNumberTooOld and the execution outcome is a Discard; at sequence
number 11 admission accepts while execution rejects with
SequenceNumberTooNew as a Discard. -/
theorem claim_c1_seq_window :
    verifyTransaction lockedEnv (p2pTxn 10) ctxSender = none ∧
    executeTransaction lockedEnv (p2pTxn 10) ctxSender = .Keep .Executed ∧
    verifyTransaction lockedEnv (p2pTxn 1) ctxSender = some .SequenceNumberTooOld ∧
    executeTransaction lockedEnv (p2pTxn 1) ctxSender
      = .Discard (.Error .SequenceNumberTooOld) ∧
    verifyTransaction lockedEnv (p2pTxn 11) ctxSender = none ∧
    executeTransaction lockedEnv (p2pTxn 11) ctxSender
      = .Discard (.Error .SequenceNumberTooNew) := by
  refine ⟨rfl, rfl, rfl, rfl, rfl, rfl⟩

/-- The account-level checks can only produce the seven account-level
status codes. -/
theorem accountChecks_codes {env : ValidationEnv} {txn : SignedTransaction}
    {ctx : AccountContext} {site : CallSite} {c : StatusCode}
    (h : accountChecks env txn ctx site = some c) :
    c = .BadChainId ∨ c = .TransactionExpired ∨ c = .SendingAccountDoesNotExist ∨
    c = .InvalidSignature ∨ c = .InvalidAuthKey ∨ c = .SequenceNumberTooOld ∨
    c = .SequenceNumberTooNew := by
  unfold accountChecks at h
  repeat' split at h
  all_goals simp_all

/-- The gas and size checks can only produce the six gas-level status
codes. -/
theorem gasAndSizeChecks_codes {env : ValidationEnv} {txn : SignedTransaction}
    {ctx : AccountContext} {c : StatusCode}
    (h : gasAndSizeChecks env txn ctx = some c) :
    c = .ExceededMaxTransactionSize ∨ c = .MaxGasUnitsBelowMinTransactionGasUnits ∨
    c = .MaxGasUnitsExceedsMaxGasUnitsBound ∨ c = .GasUnitPriceAboveMaxBound ∨
    c = .GasUnitPriceBelowMinBound ∨ c = .InsufficientBalanceForTransactionFee := by
  unfold gasAndSizeChecks at h
  repeat' split at h
  all_goals simp_all

/-- The shallow payload gating can only produce `UnknownScript` or
`InvalidModulePublisher`. -/
theorem shallowPayloadCheck_codes {env : ValidationEnv} {txn : SignedTransaction}
    {c : StatusCode} (h : shallowPayloadCheck env txn = some c) :
    c = .UnknownScript ∨ c = .InvalidModulePublisher := by
  unfold shallowPayloadCheck at h
  repeat' split at h
  all_goals simp_all

/-- Any status the admission call site can produce is either one of the
Discard-classified prologue codes or one of the two shallow payload-gating
codes; in particular admission never produces a status that requires
deserializing the payload. -/
theorem admission_codes {env : ValidationEnv} {txn : SignedTransaction}
    {ctx : AccountContext} {c : StatusCode}
    (h : verifyTransaction env txn ctx = some c) :
    StatusCode.classification c = .Discard ∨ c = .UnknownScript ∨
    c = .InvalidModulePublisher := by
  unfold verifyTransaction validate at h
  split at h
  case _ d hacc =>
    cases h
    rcases accountChecks_codes hacc with h1 | h1 | h1 | h1 | h1 | h1 | h1 <;>
      subst h1 <;> exact Or.inl rfl
  case _ hacc =>
    split at h
    case _ d hgas =>
      cases h
      rcases gasAndSizeChecks_codes hgas with h1 | h1 | h1 | h1 | h1 | h1 <;>
        subst h1 <;> exact Or.inl rfl
    case _ hgas =>
      split at h
      case _ d hsh =>
        cases h
        rcases shallowPayloadCheck_codes hsh with h1 | h1 <;> subst h1 <;> simp
      case _ hsh =>
        simp at h

/-- C2 counterexample: the admission call site itself returns
`UnknownScript` for a non-whitelisted script under the `Locked` policy
(the `assert_prologue_parity` of `test_whitelist`), so the claim that
admission never returns a payload-gating status is false. -/
theorem claim_c2_counterexample :
    verifyTransaction lockedEnv garbageTxn ctxSender = some .UnknownScript := by
  rfl

/-- C2 (amended): the admission call site does evaluate the shallow
payload-gating checks — it can itself return `InvalidModulePublisher`
(and `UnknownScript`) — but it never evaluates the
deserialization-dependent checks: no transaction makes admission return
`CodeDeserializationError`, `ModuleAddressDoesNotMatchSender`, or
`TypeMismatch`; those statuses can only be produced by the execution
gate. -/
theorem claim_c2_amended (env : ValidationEnv) (txn : SignedTransaction)
    (ctx : AccountContext) :
    (verifyTransaction env txn ctx ≠ some .CodeDeserializationError ∧
     verifyTransaction env txn ctx ≠ some .ModuleAddressDoesNotMatchSender ∧
     verifyTransaction env txn ctx ≠ some .TypeMismatch) ∧
    verifyTransaction customEnv modulePublishTxn ctxSender
      = some .InvalidModulePublisher := by
  refine ⟨⟨?_, ?_, ?_⟩, rfl⟩ <;>
    · intro h
      rcases admission_codes h with h1 | h1 | h1 <;> exact absurd h1 (by decide)

/-- C2 witness: the admission-never-deep-status part of the amended claim
instantiated at the garbage-script transaction under `CustomScripts`. -/
theorem claim_c2_witness :
    verifyTransaction customEnv garbageTxn ctxSender ≠ some .CodeDeserializationError := by
  exact (claim_c2_amended customEnv garbageTxn ctxSender).1.1

/-- C3 counterexample: `overpricedTxn` violates both gas affordability
(balance 900_000 is below max_gas_amount × gas_unit_price) and the
gas-price upper bound, yet the pipeline rejects it with
`GasUnitPriceAboveMaxBound`, not `InsufficientBalanceForTransactionFee`
(lines 217-230 of `verify_simple_payment` assert exactly this), so the
claim that the affordability check is evaluated first is false. -/
theorem claim_c3_counterexample :
    ctxSender.balance overpricedTxn.raw.gasCurrencyCode
      < overpricedTxn.raw.maxGasAmount * overpricedTxn.raw.gasUnitPrice ∧
    lockedEnv.gas.maxPricePerGasUnit < overpricedTxn.raw.gasUnitPrice ∧
    validate lockedEnv overpricedTxn ctxSender .execution
      = some .GasUnitPriceAboveMaxBound ∧
    validate lockedEnv overpricedTxn ctxSender .execution
      ≠ some .InsufficientBalanceForTransactionFee := by
  refine ⟨by decide, by decide, rfl, by decide⟩

/-- C3 (amended): for every transaction whose gas_unit_price is strictly
greater than max_price_per_gas_unit and which passes the account-level
checks, the size bound, and the max-gas-units bounds, the pipeline rejects
with `GasUnitPriceAboveMaxBound` — the gas-price check is evaluated
strictly before the gas-affordability check (no affordability hypothesis
is needed), so a transaction violating both affordability and the
gas-price upper bound is rejected with the gas-price status. -/
theorem claim_c3_amended (env : ValidationEnv) (txn : SignedTransaction)
    (ctx : AccountContext) (site : CallSite)
    (hacc : accountChecks env txn ctx site = none)
    (hsize : env.oracles.txnSize txn ≤ env.gas.maxTransactionSizeInBytes)
    (hmin : env.gas.minTransactionGasUnits ≤ txn.raw.maxGasAmount)
    (hmax : txn.raw.maxGasAmount ≤ env.gas.maximumNumberOfGasUnits)
    (hprice : env.gas.maxPricePerGasUnit < txn.raw.gasUnitPrice) :
    validate env txn ctx site = some .GasUnitPriceAboveMaxBound := by
  unfold validate
  rw [hacc]
  unfold gasAndSizeChecks
  rw [if_neg (Nat.not_lt.mpr hsize), if_neg (Nat.not_lt.mpr hmin),
    if_neg (Nat.not_lt.mpr hmax), if_pos hprice]

/-- C3 witness: the amended claim applied to the concrete overpriced
transaction of the e2e test. -/
theorem claim_c3_witness :
    validate lockedEnv overpricedTxn ctxSender .execution
      = some .GasUnitPriceAboveMaxBound := by
  exact claim_c3_amended lockedEnv overpricedTxn ctxSender .execution rfl
    (by decide) (by decide) (by decide) (by decide)

/-- C4 counterexample: `oversizedTxn` simultaneously exceeds the
max-gas-units ceiling and the maximum serialized size, yet the pipeline
rejects it with `ExceededMaxTransactionSize`, not
`MaxGasUnitsExceedsMaxGasUnitsBound` (lines 293-306 of
`verify_simple_payment` assert exactly this), so the claim that the
max-gas-units checks are evaluated before the size check is false. -/
theorem claim_c4_counterexample :
    lockedEnv.gas.maxTransactionSizeInBytes < lockedEnv.oracles.txnSize oversizedTxn ∧
    lockedEnv.gas.maximumNumberOfGasUnits < oversizedTxn.raw.maxGasAmount ∧
    validate lockedEnv oversizedTxn ctxSender .execution
      = some .ExceededMaxTransactionSize ∧
    validate lockedEnv oversizedTxn ctxSender .execution
      ≠ some .MaxGasUnitsExceedsMaxGasUnitsBound := by
  refine ⟨by decide, by decide, rfl, by decide⟩

/-- C4 (amended): the serialized-size bound check is evaluated strictly
before the max-gas-units bound checks: a transaction that simultaneously
exceeds the max-gas-units ceiling and the maximum serialized size is
never rejected with `MaxGasUnitsExceedsMaxGasUnitsBound`, and when the
account-level checks pass its outcome is `ExceededMaxTransactionSize`. -/
theorem claim_c4_amended (env : ValidationEnv) (txn : SignedTransaction)
    (ctx : AccountContext) (site : CallSite)
    (hsize : env.gas.maxTransactionSizeInBytes < env.oracles.txnSize txn)
    (hgas : env.gas.maximumNumberOfGasUnits < txn.raw.maxGasAmount) :
    validate env txn ctx site ≠ some .MaxGasUnitsExceedsMaxGasUnitsBound ∧
    (accountChecks env txn ctx site = none →
      validate env txn ctx site = some .ExceededMaxTransactionSize) := by
  have hg : gasAndSizeChecks env txn ctx = some .ExceededMaxTransactionSize := by
    unfold gasAndSizeChecks
    rw [if_pos hsize]
  constructor
  · intro h
    unfold validate at h
    split at h
    case _ d hacc =>
      cases h
      rcases accountChecks_codes hacc with h1 | h1 | h1 | h1 | h1 | h1 | h1 <;>
        exact absurd h1 (by decide)
    case _ hacc =>
      rw [hg] at h
      simp at h
  · intro hacc
    unfold validate
    rw [hacc, hg]

/-- C4 witness: the amended claim applied to the concrete oversized
transaction of the e2e test. -/
theorem claim_c4_witness :
    validate lockedEnv oversizedTxn ctxSender .execution
      = some .ExceededMaxTransactionSize ∧
    validate lockedEnv oversizedTxn ctxSender .execution
      ≠ some .MaxGasUnitsExceedsMaxGasUnitsBound := by
  refine ⟨(claim_c4_amended lockedEnv oversizedTxn ctxSender .execution
    (by decide) (by decide)).2 rfl,
    (claim_c4_amended lockedEnv oversizedTxn ctxSender .execution
    (by decide) (by decide)).1⟩

/-- C5: under the `Locked` and `CustomScripts` policies, a module-publish
transaction from any account other than the privileged root that passes
the account-level and gas checks is rejected at execution with
`InvalidModulePublisher` as a Keep, independent of the module's
self-declared address (no deserialization hypothesis is needed); the same
publish sent by the privileged root (with deserializable bytecode) is
accepted and recorded as executed. -/
theorem claim_c5_module_publisher :
    (∀ (env : ValidationEnv) (txn : SignedTransaction) (ctx : AccountContext)
      (code : List Nat),
      (env.policy = .CustomScripts ∨ ∃ wl, env.policy = .Locked wl) →
      txn.raw.payload = .Module code →
      txn.raw.sender ≠ env.rootAddress →
      accountChecks env txn ctx .execution = none →
      gasAndSizeChecks env txn ctx = none →
      executeTransaction env txn ctx = .Keep (.Error .InvalidModulePublisher)) ∧
    (∀ (env : ValidationEnv) (txn : SignedTransaction) (ctx : AccountContext)
      (code : List Nat) (a : Nat),
      (env.policy = .CustomScripts ∨ ∃ wl, env.policy = .Locked wl) →
      txn.raw.payload = .Module code →
      txn.raw.sender = env.rootAddress →
      env.oracles.deserializeModuleAddress code = some a →
      accountChecks env txn ctx .execution = none →
      gasAndSizeChecks env txn ctx = none →
      executeTransaction env txn ctx = .Keep .Executed) := by
  constructor
  · intro env txn ctx code hpol hpay hs hacc hgas
    rcases hpol with h | ⟨wl, h⟩ <;>
      simp [executeTransaction, validate, hacc, hgas, shallowPayloadCheck, hpay, h,
        hs, StatusCode.classification]
  · intro env txn ctx code a hpol hpay hs hdes hacc hgas
    rcases hpol with h | ⟨wl, h⟩ <;>
      simp [executeTransaction, validate, hacc, hgas, shallowPayloadCheck,
        deepPayloadCheck, hpay, h, hs, hdes]

/-- C5 witness: the non-root module publish under `CustomScripts` is kept
as `InvalidModulePublisher`, the identical publish from the privileged
root executes successfully. -/
theorem claim_c5_witness :
    executeTransaction customEnv modulePublishTxn ctxSender
      = .Keep (.Error .InvalidModulePublisher) ∧
    executeTransaction customEnv moduleRootTxn ctxRoot = .Keep .Executed := by
  exact ⟨claim_c5_module_publisher.1 customEnv modulePublishTxn ctxSender [12]
      (Or.inl rfl) rfl (by decide) rfl rfl,
    claim_c5_module_publisher.2 customEnv moduleRootTxn ctxRoot [7] rootAddr
      (Or.inl rfl) rfl rfl rfl rfl rfl⟩

/-- C6: a script whose content hash is absent from the whitelist is
rejected under `Locked` at execution with `UnknownScript` (Keep); under
`CustomScripts` or `Open` the identical bytecode passes whitelist gating
(admission accepts it), and if it is malformed (fails to deserialize) the
execution outcome is `CodeDeserializationError`, classified Keep rather
than discarded. -/
theorem claim_c6_whitelist_gating :
    (∀ (env : ValidationEnv) (wl : List (List Nat)) (txn : SignedTransaction)
      (ctx : AccountContext) (code tys : List Nat) (args : List TransactionArgument),
      env.policy = .Locked wl →
      txn.raw.payload = .Script code tys args →
      env.oracles.contentHash code ∉ wl →
      accountChecks env txn ctx .execution = none →
      gasAndSizeChecks env txn ctx = none →
      validate env txn ctx .execution = some .UnknownScript ∧
      executeTransaction env txn ctx = .Keep (.Error .UnknownScript)) ∧
    (∀ (env : ValidationEnv) (txn : SignedTransaction) (ctx : AccountContext)
      (code tys : List Nat) (args : List TransactionArgument),
      (env.policy = .CustomScripts ∨ env.policy = .Open) →
      txn.raw.payload = .Script code tys args →
      accountChecks env txn ctx .admission = none →
      gasAndSizeChecks env txn ctx = none →
      verifyTransaction env txn ctx = none) ∧
    (∀ (env : ValidationEnv) (txn : SignedTransaction) (ctx : AccountContext)
      (code tys : List Nat) (args : List TransactionArgument),
      (env.policy = .CustomScripts ∨ env.policy = .Open) →
      txn.raw.payload = .Script code tys args →
      env.oracles.deserializeScriptSig code = none →
      accountChecks env txn ctx .execution = none →
      gasAndSizeChecks env txn ctx = none →
      executeTransaction env txn ctx = .Keep (.Error .CodeDeserializationError)) := by
  refine ⟨?_, ?_, ?_⟩
  · intro env wl txn ctx code tys args hpol hpay hwl hacc hgas
    simp [executeTransaction, validate, hacc, hgas, shallowPayloadCheck, hpay, hpol,
      hwl, StatusCode.classification]
  · intro env txn ctx code tys args hpol hpay hacc hgas
    rcases hpol with h | h <;>
      simp [verifyTransaction, validate, hacc, hgas, shallowPayloadCheck, hpay, h]
  · intro env txn ctx code tys args hpol hpay hdes hacc hgas
    rcases hpol with h | h <;>
      simp [executeTransaction, validate, hacc, hgas, shallowPayloadCheck,
        deepPayloadCheck, hpay, h, hdes, StatusCode.classification]

/-- C6 witness: the empty script is kept as `UnknownScript` under `Locked`,
while under `CustomScripts` admission accepts it and execution keeps it as
`CodeDeserializationError`. -/
theorem claim_c6_witness :
    executeTransaction lockedEnv garbageTxn ctxSender = .Keep (.Error .UnknownScript) ∧
    verifyTransaction customEnv garbageTxn ctxSender = none ∧
    executeTransaction customEnv garbageTxn ctxSender
      = .Keep (.Error .CodeDeserializationError) := by
  exact ⟨(claim_c6_whitelist_gating.1 lockedEnv [p2pCode] garbageTxn ctxSender
      [] [] [] rfl rfl (by decide) rfl rfl).2,
    claim_c6_whitelist_gating.2.1 customEnv garbageTxn ctxSender [] [] []
      (Or.inl rfl) rfl rfl rfl,
    claim_c6_whitelist_gating.2.2 customEnv garbageTxn ctxSender [] [] []
      (Or.inl rfl) rfl rfl rfl rfl⟩

/-- C7: under the `Open` policy a module whose self-declared address
differs from the sender's is not detected at admission (admission
accepts) and is rejected at execution with
`ModuleAddressDoesNotMatchSender`, classified Keep, not Discard; when the
self-declared address equals the sender's the publish is accepted and
recorded as executed. -/
theorem claim_c7_open_address_match :
    (∀ (env : ValidationEnv) (txn : SignedTransaction) (ctx : AccountContext)
      (code : List Nat) (a : Nat),
      env.policy = .Open →
      txn.raw.payload = .Module code →
      env.oracles.deserializeModuleAddress code = some a →
      a ≠ txn.raw.sender →
      accountChecks env txn ctx .admission = none →
      accountChecks env txn ctx .execution = none →
      gasAndSizeChecks env txn ctx = none →
      verifyTransaction env txn ctx = none ∧
      executeTransaction env txn ctx
        = .Keep (.Error .ModuleAddressDoesNotMatchSender)) ∧
    (∀ (env : ValidationEnv) (txn : SignedTransaction) (ctx : AccountContext)
      (code : List Nat) (a : Nat),
      env.policy = .Open →
      txn.raw.payload = .Module code →
      env.oracles.deserializeModuleAddress code = some a →
      a = txn.raw.sender →
      accountChecks env txn ctx .execution = none →
      gasAndSizeChecks env txn ctx = none →
      executeTransaction env txn ctx = .Keep .Executed) := by
  constructor
  · intro env txn ctx code a hpol hpay hdes hne haccA haccE hgas
    constructor
    · simp [verifyTransaction, validate, haccA, hgas, shallowPayloadCheck, hpay, hpol]
    · simp [executeTransaction, validate, haccE, hgas, shallowPayloadCheck,
        deepPayloadCheck, hpay, hpol, hdes, hne, StatusCode.classification]
  · intro env txn ctx code a hpol hpay hdes ha hacc hgas
    simp [executeTransaction, validate, hacc, hgas, shallowPayloadCheck,
      deepPayloadCheck, hpay, hpol, hdes, ha]

/-- C7 witness: the mismatching module publish under `Open` is accepted at
admission, kept as `ModuleAddressDoesNotMatchSender` at execution, and the
matching publish executes successfully. -/
theorem claim_c7_witness :
    verifyTransaction openEnv moduleMismatchTxn ctxSender = none ∧
    executeTransaction openEnv moduleMismatchTxn ctxSender
      = .Keep (.Error .ModuleAddressDoesNotMatchSender) ∧
    executeTransaction openEnv modulePublishTxn ctxSender = .Keep .Executed := by
  obtain ⟨h1, h2⟩ := claim_c7_open_address_match.1 openEnv moduleMismatchTxn ctxSender
    [8] receiverAddr rfl rfl rfl (by decide) rfl rfl rfl
  exact ⟨h1, h2, claim_c7_open_address_match.2 openEnv modulePublishTxn ctxSender
    [12] senderAddr rfl rfl rfl rfl rfl rfl⟩

/-- C8: every transaction whose sender has no on-ledger account record —
the privileged-root or any other address — is rejected by both call sites
with `SendingAccountDoesNotExist` (a Discard at execution), provided the
transaction is on the right chain and not expired (the two checks the
pipeline evaluates first). -/
theorem claim_c8_nonexistent_sender (env : ValidationEnv)
    (txn : SignedTransaction) (ctx : AccountContext)
    (hch : txn.raw.chainId = env.chainId)
    (hexp : env.currentTime ≤ txn.raw.expirationTime)
    (hex : ctx.accountExists = false) :
    verifyTransaction env txn ctx = some .SendingAccountDoesNotExist ∧
    executeTransaction env txn ctx
      = .Discard (.Error .SendingAccountDoesNotExist) := by
  have hacc : ∀ site, accountChecks env txn ctx site
      = some .SendingAccountDoesNotExist := by
    intro site
    unfold accountChecks
    rw [if_neg (fun hne => hne hch), if_neg (Nat.not_lt.mpr hexp), if_pos hex]
  constructor
  · unfold verifyTransaction validate
    rw [hacc .admission]
  · unfold executeTransaction validate
    rw [hacc .execution]
    rfl

/-- C8 witness: the peer-to-peer transaction from the account that was
never added to the ledger is rejected by both call sites with
`SendingAccountDoesNotExist` and discarded. -/
theorem claim_c8_witness :
    verifyTransaction lockedEnv (p2pTxn 10) ctxBogus
      = some .SendingAccountDoesNotExist ∧
    executeTransaction lockedEnv (p2pTxn 10) ctxBogus
      = .Discard (.Error .SendingAccountDoesNotExist) := by
  exact claim_c8_nonexistent_sender lockedEnv (p2pTxn 10) ctxBogus rfl
    (by decide) rfl

/-- A successful linear `find?` is exactly the existence of a member
satisfying the predicate. -/
theorem find?_isSome_iff_exists {α : Type} (l : List α) (p : α → Bool) :
    (l.find? p).isSome = true ↔ ∃ x, x ∈ l ∧ p x = true := by
  induction l with
  | nil => simp [List.find?]
  | cons a t ih =>
    by_cases h : p a = true <;> simp [List.find?, h, ih]

/-- C9: the whitelist is exactly the set of content hashes of the compiled
bytecode of the scripts of `all` (which contains every stdlib script), and
`is` succeeds on `codeBytes` exactly when the content hash of `codeBytes`
equals the content hash of some script of `all` — a linear scan comparing
digests by exact equality. This holds for every digest function `hash`
and compiled-bytecode table `code`, hence for sha3-256 and the shipped
binaries. -/
theorem claim_c9_whitelist_hashes (hash : List Nat → List Nat)
    (code : StdlibScript → List Nat) :
    (∀ s : StdlibScript, s ∈ StdlibScript.all) ∧
    (∀ h, h ∈ StdlibScript.whitelist hash code ↔
      ∃ s, s ∈ StdlibScript.all ∧ h = hash (code s)) ∧
    (∀ codeBytes, StdlibScript.is hash code codeBytes = true ↔
      ∃ s, s ∈ StdlibScript.all ∧ hash (code s) = hash codeBytes) := by
  refine ⟨?_, ?_, ?_⟩
  · intro s
    cases s <;> simp [StdlibScript.all]
  · intro h
    constructor
    · intro hm
      rcases List.mem_map.mp hm with ⟨s, hs, he⟩
      exact ⟨s, hs, he.symm⟩
    · rintro ⟨s, hs, he⟩
      exact List.mem_map.mpr ⟨s, hs, he.symm⟩
  · intro codeBytes
    unfold StdlibScript.is StdlibScript.tryFrom
    rw [find?_isSome_iff_exists]
    constructor
    · rintro ⟨s, hs, he⟩
      exact ⟨s, hs, by simpa using he⟩
    · rintro ⟨s, hs, he⟩
      exact ⟨s, hs, by simpa using he⟩

/-- A reserved-name lookup success forces the input to be one of the five
reserved names with its discriminant. -/
theorem strToChainId_eq_some {s : String} {c : ChainId}
    (h : NamedChain.strToChainId s = some c) :
    (s = "MAINNET" ∧ c = ⟨0⟩) ∨ (s = "PREMAINNET" ∧ c = ⟨1⟩) ∨
    (s = "TESTNET" ∧ c = ⟨2⟩) ∨ (s = "DEVNET" ∧ c = ⟨3⟩) ∨
    (s = "TESTING" ∧ c = ⟨4⟩) := by
  unfold NamedChain.strToChainId at h
  repeat' split at h
  all_goals first
    | (subst_vars; cases h; decide)
    | simp_all

/-- No reserved chain name parses as a decimal u8. -/
theorem strToChainId_parse_none {s : String} {c : ChainId}
    (h : NamedChain.strToChainId s = some c) : parseU8 s = none := by
  unfold NamedChain.strToChainId at h
  repeat' split at h
  all_goals first
    | (subst_vars; decide)
    | simp_all

/-- The empty string does not parse as a decimal u8. -/
theorem parseU8_empty_eq_none {s : String} (h : s = "") : parseU8 s = none := by
  subst h
  decide

/-- Each reserved name maps to its discriminant under `from_str`. -/
theorem fromStr_reserved (s : String) (n : Nat)
    (h : (s = "MAINNET" ∧ n = 0) ∨ (s = "PREMAINNET" ∧ n = 1) ∨
      (s = "TESTNET" ∧ n = 2) ∨ (s = "DEVNET" ∧ n = 3) ∨ (s = "TESTING" ∧ n = 4)) :
    ChainId.fromStr s = .ok ⟨n⟩ := by
  rcases h with ⟨hs, hn⟩ | ⟨hs, hn⟩ | ⟨hs, hn⟩ | ⟨hs, hn⟩ | ⟨hs, hn⟩ <;>
    subst hs <;> subst hn <;> decide

/-- C10: `from_str` returns `Ok(ChainId(n))` exactly when the input is one
of the five reserved names (MAINNET to 0, PREMAINNET to 1, TESTNET to 2,
DEVNET to 3, TESTING to 4) or a string parsing as the decimal u8 `n`; it
returns an error exactly on every other nonempty string; and it panics
(via the assertion) exactly on the empty string. -/
theorem claim_c10_chain_id_from_str :
    (∀ (s : String) (n : Nat),
      ChainId.fromStr s = .ok ⟨n⟩ ↔
        ((s = "MAINNET" ∧ n = 0) ∨ (s = "PREMAINNET" ∧ n = 1) ∨
         (s = "TESTNET" ∧ n = 2) ∨ (s = "DEVNET" ∧ n = 3) ∨
         (s = "TESTING" ∧ n = 4) ∨ parseU8 s = some n)) ∧
    (∀ s : String,
      ChainId.fromStr s = .err ↔
        (s ≠ "" ∧ NamedChain.strToChainId s = none ∧ parseU8 s = none)) ∧
    (∀ s : String, ChainId.fromStr s = .panicked ↔ s = "") := by
  refine ⟨?_, ?_, ?_⟩
  · intro s n
    constructor
    · intro h
      unfold ChainId.fromStr at h
      split at h
      · exact FromStrOutcome.noConfusion h
      · split at h
        case _ c hsc =>
          cases h
          rcases strToChainId_eq_some hsc with ⟨hs, hc⟩ | ⟨hs, hc⟩ | ⟨hs, hc⟩ |
              ⟨hs, hc⟩ | ⟨hs, hc⟩ <;>
            injection hc with hn <;> simp [hs, hn]
        case _ hsc =>
          split at h
          case _ m hp =>
            injection h with h2
            injection h2 with h3
            subst h3
            exact Or.inr (Or.inr (Or.inr (Or.inr (Or.inr hp))))
          case _ hp => exact FromStrOutcome.noConfusion h
    · intro h
      rcases h with h | h | h | h | h | hp
      · exact fromStr_reserved s n (Or.inl h)
      · exact fromStr_reserved s n (Or.inr (Or.inl h))
      · exact fromStr_reserved s n (Or.inr (Or.inr (Or.inl h)))
      · exact fromStr_reserved s n (Or.inr (Or.inr (Or.inr (Or.inl h))))
      · exact fromStr_reserved s n (Or.inr (Or.inr (Or.inr (Or.inr h))))
      · have hne : s.isEmpty = false := by
          cases hemp : s.isEmpty
          · rfl
          · exact absurd (parseU8_empty_eq_none ((String.isEmpty_iff s).mp hemp))
              (by simp [hp])
        unfold ChainId.fromStr
        rw [hne]
        simp only [Bool.false_eq_true, if_false]
        cases hsc : NamedChain.strToChainId s with
        | some c => exact absurd (strToChainId_parse_none hsc) (by simp [hp])
        | none => rw [hp]
  · intro s
    constructor
    · intro h
      unfold ChainId.fromStr at h
      split at h
      case _ hemp => exact FromStrOutcome.noConfusion h
      case _ hemp =>
        have hne : s ≠ "" := by
          intro he
          rw [he] at hemp
          exact absurd hemp (by decide)
        split at h
        case _ c hsc => exact FromStrOutcome.noConfusion h
        case _ hsc =>
          split at h
          case _ m hp => exact FromStrOutcome.noConfusion h
          case _ hp => exact ⟨hne, hsc, hp⟩
    · rintro ⟨hne, hsc, hp⟩
      have hemp : s.isEmpty = false := by
        cases h : s.isEmpty
        · rfl
        · exact absurd ((String.isEmpty_iff s).mp h) hne
      unfold ChainId.fromStr
      rw [hemp]
      simp only [Bool.false_eq_true, if_false]
      rw [hsc, hp]
  · intro s
    constructor
    · intro h
      unfold ChainId.fromStr at h
      split at h
      case _ hemp => exact (String.isEmpty_iff s).mp hemp
      case _ hemp =>
        split at h
        case _ c hsc => exact FromStrOutcome.noConfusion h
        case _ hsc =>
          split at h
          case _ m hp => exact FromStrOutcome.noConfusion h
          case _ hp => exact FromStrOutcome.noConfusion h
    · intro h
      subst h
      decide

end Libra
